import Mathlib

/-!
Shallow embedding of the agent orchestration core of this repository
(src/agent/core: orchestrator.py, guardrails.py, tool_registry.py, schemas.py,
plus the legacy src/agent/registry.py), with theorems settling the frozen
claims about its specification.

Modelling conventions:
* Python values flowing through the orchestrator (LLM plans, tool arguments,
  tool results) are modelled by the inductive `PVal` (None, bool, int, str,
  list, dict with string keys, as produced by json.loads and the fake LLM).
* Python exceptions are modelled with `Except String`, the `String` being
  `str(e)`.  A function that Python lets an exception escape from returns
  `.error msg`; `try/except` blocks become explicit `match`es.
* `json.loads` (Python stdlib, external to the repository) is abstracted as a
  parameter `parse : String → Option PVal`; theorems quantify over it.
* The structured logger (logging_config.py) only writes log records and is
  modelled as effect-free; the spec excludes log persistence from the core.
* Character classes (`str.strip`, `\w`, `\s`, `str.lower`) are modelled over
  their ASCII behaviour, which is exact for all inputs considered here.
-/

namespace Agent

/-- Python values as handled by the orchestrator: the payloads produced by
json.loads and by LLM clients.  Dicts are insertion-ordered string-keyed
association lists, as Python dicts from JSON are. -/
inductive PVal where
  | none
  | bool (b : Bool)
  | int (n : Int)
  | str (s : String)
  | list (elems : List PVal)
  | dict (entries : List (String × PVal))
deriving Inhabited

/-- Python truthiness of a `PVal` (`bool(v)`). -/
def PVal.truthy : PVal → Bool
  | .none => false
  | .bool b => b
  | .int n => n != 0
  | .str s => s != ""
  | .list xs => !xs.isEmpty
  | .dict xs => !xs.isEmpty

/-- Whitespace characters stripped by Python `str.strip()` (ASCII fragment). -/
def isPySpace (c : Char) : Bool :=
  c == ' ' || c == '\t' || c == '\n' || c == '\x0d' || c == '\x0c' || c == '\x0b'

/-- Python `text.strip()`: drop leading and trailing whitespace. -/
def pyStrip (s : String) : String :=
  String.mk (((s.toList.dropWhile isPySpace).reverse.dropWhile isPySpace).reverse)

/-- `sanitize_input` from guardrails.py lines 7-17: strip, then truncate the
stripped text to 10000 characters if it is longer.  (The `isinstance` check is
vacuous here because the input is typed as a string.) -/
def sanitize_input (text : String) : String :=
  let t := pyStrip text
  if t.length > 10000 then String.mk (t.toList.take 10000) else t

/-- A registered capability ("tool"): its reported `name()`, `description()`
and `execute(**kwargs)` behaviour (which may raise, hence `Except`).
Mirrors the `Tool` protocol of contracts.py / tool_registry.py. -/
structure Tool where
  name : String
  description : String
  exec : List (String × PVal) → Except String PVal

/-- Registry state: the underlying insertion-ordered dict `self._tools`
mapping tool names to tools. -/
abbrev Registry := List (String × Tool)

/-- `ToolRegistry.list_tools` (both registries): the dict keys in order. -/
def listTools (r : Registry) : List String := r.map (fun p => p.1)

/-- `ToolRegistry.has_tool` from tool_registry.py lines 78-80. -/
def hasTool (r : Registry) (n : String) : Bool := (r.lookup n).isSome

/-- `ToolRegistry.register` from the core registry (tool_registry.py lines
43-59): if `tool.name()` is already a key, return without touching the dict;
otherwise insert at the end. -/
def coreRegister (r : Registry) (t : Tool) : Registry :=
  if (r.lookup t.name).isSome then r else r ++ [(t.name, t)]

/-- `ToolRegistry.register` from the legacy registry (registry.py lines
32-34): plain dict assignment `self._tools[tool.name()] = tool`, which
overwrites the value in place when the key exists and appends otherwise. -/
def legacyRegister (r : Registry) (t : Tool) : Registry :=
  if (r.lookup t.name).isSome then
    r.map (fun p => if p.1 == t.name then (p.1, t) else p)
  else r ++ [(t.name, t)]

/-- Modelled from the spec: the repository has no `agent/core/policies.py`
under src (only tests/test_policies.py references `agent.core.policies`), so
`RetryPolicy` is modelled from spec section 4.3: fields
`{max_attempts, base_delay, exponential_base, max_delay}`.  Delays are
modelled over the rationals; every delay arising in the claims (products of
small powers of two, and their minima) is computed exactly by binary
floating point, so the rational model is faithful on them. -/
structure RetryPolicy where
  max_attempts : Nat
  base_delay : Rat
  exponential_base : Rat
  max_delay : Rat

/-- Modelled from the spec:
`Delay(attempt_number) = min(base_delay * exponential_base^(attempt_number-1),
max_delay)`, attempt numbers starting at 1 (spec section 4.3). -/
def RetryPolicy.get_delay (p : RetryPolicy) (attempt : Nat) : Rat :=
  min (p.base_delay * p.exponential_base ^ (attempt - 1)) p.max_delay

/-- `validate_tool_call` from guardrails.py lines 20-26: data must be a dict
containing the key "tool". -/
def validate_tool_call : PVal → Bool
  | .dict d => (d.lookup "tool").isSome
  | _ => false

/-- Fuelled worker for `subCommaClose`; the fuel (initially the input length)
only guarantees structural termination and is never exhausted on the lengths
used. -/
def subCommaCloseAux (close : Char) : Nat → List Char → List Char
  | _, [] => []
  | 0, l => l
  | fuel + 1, c :: rest =>
    match rest.dropWhile isPySpace with
    | c2 :: tail =>
      if c == ',' && c2 == close then
        close :: subCommaCloseAux close fuel tail
      else c :: subCommaCloseAux close fuel rest
    | [] => c :: subCommaCloseAux close fuel rest

/-- Python `re.sub(r',\s*X', 'X', s)` for a closing character `X` (`}` or
`]`), as used by the last two repairs in `repair_json` (guardrails.py lines
49-50): every comma followed by optional whitespace and then `X` is replaced
by `X`, scanning left to right without overlap. -/
def subCommaClose (close : Char) (l : List Char) : List Char :=
  subCommaCloseAux close l.length l

/-- The five repaired candidate strings tried by `repair_json` (guardrails.py
lines 41-51), in order; each repair is applied to `text.strip()`. -/
def repairCandidates (text : String) : List String :=
  let s := pyStrip text
  [ s ++ "\x7d"
  , s ++ "\""
  , s ++ "]"
  , String.mk (subCommaClose '\x7d' s.toList)
  , String.mk (subCommaClose ']' s.toList) ]

/-- First candidate in the list that `parse` accepts (the repair loop of
guardrails.py lines 53-58: any parse failure moves to the next repair). -/
def firstParse (parse : String → Option PVal) : List String → Option PVal
  | [] => Option.none
  | c :: cs =>
    match parse c with
    | some v => some v
    | Option.none => firstParse parse cs

/-- `repair_json` from guardrails.py lines 29-60: empty text yields None;
otherwise try `json.loads` (abstracted as `parse`) on the raw text, then on
each repaired candidate in order, returning the first success. -/
def repairJson (parse : String → Option PVal) (text : String) : Option PVal :=
  if text == "" then Option.none
  else
    match parse text with
    | some v => some v
    | Option.none => firstParse parse (repairCandidates text)

/-- Python regex `\w` (ASCII fragment): letters, digits, underscore. -/
def wordChar (c : Char) : Bool := c.isAlphanum || c == '_'

/-- Python `s.lower()` (ASCII fragment), charwise. -/
def pyLower (s : String) : String := String.mk (s.toList.map Char.toLower)

/-- Attempt to match the regex `TOOL:(\w+)\s+(\w+)="([^"]*)"` (guardrails.py
line 71) anchored at the head of `l`, returning the three capture groups.
Greedy maximal-munch is equivalent to the regex here because consecutive
classes (`\w`/`\s`, `\w`/`=`, `[^"]`/`"`) are disjoint, so no backtracking
can succeed where maximal munch fails. -/
def matchTOOLAt (l : List Char) : Option (List Char × List Char × List Char) :=
  match l with
  | 'T' :: 'O' :: 'O' :: 'L' :: ':' :: rest =>
    let t := rest.takeWhile wordChar
    let r1 := rest.dropWhile wordChar
    if t.isEmpty then Option.none
    else
      let ws := r1.takeWhile isPySpace
      let r2 := r1.dropWhile isPySpace
      if ws.isEmpty then Option.none
      else
        let a := r2.takeWhile wordChar
        let r3 := r2.dropWhile wordChar
        if a.isEmpty then Option.none
        else
          match r3 with
          | c3 :: c4 :: r4 =>
            if c3 == '=' && c4 == '"' then
              let v := r4.takeWhile (fun c => c != '"')
              let r5 := r4.dropWhile (fun c => c != '"')
              match r5 with
              | c6 :: _ => if c6 == '"' then some (t, a, v) else Option.none
              | [] => Option.none
            else Option.none
          | _ => Option.none
  | _ => Option.none

/-- `re.search` of the pattern above: try each start position left to right,
returning the captures of the first successful match. -/
def searchTOOL : List Char → Option (List Char × List Char × List Char)
  | [] => Option.none
  | c :: rest =>
    match matchTOOLAt (c :: rest) with
    | some r => some r
    | Option.none => searchTOOL rest

/-- The pattern fallback of `extract_tool_call_from_text` (guardrails.py
lines 70-78): on a successful search, build
`{"tool": tool_name, "args": {arg_name.lower(): arg_value}}`. -/
def patternRecover (text : String) : Option (List (String × PVal)) :=
  match searchTOOL text.toList with
  | some (t, a, v) =>
    some [("tool", .str (String.mk t)),
          ("args", .dict [(pyLower (String.mk a), .str (String.mk v))])]
  | Option.none => Option.none

/-- `extract_tool_call_from_text` from guardrails.py lines 63-80: first try
`repair_json`; if the result is truthy and a valid tool call, return that
dict (its entries).  Otherwise fall back to the `TOOL:name ARG="value"`
pattern.  Returns the entries of the resulting dict. -/
def extract_tool_call_from_text (parse : String → Option PVal)
    (text : String) : Option (List (String × PVal)) :=
  match repairJson parse text with
  | some r =>
    if r.truthy && validate_tool_call r then
      match r with
      | .dict d => some d
      | _ => Option.none  -- unreachable: validate_tool_call forces a dict
    else patternRecover text
  | Option.none => patternRecover text

/-- A validated tool call (schemas.py lines 13-17, pydantic v2 model
`ToolCall`): a tool name and an argument dict.  The optional `id` field is
never set by the orchestrator and is omitted. -/
structure ToolCall where
  tool : String
  args : List (String × PVal)

/-- Modelled message of the pydantic v2 ValidationError raised when the
`tool` field is not a string (schemas.py line 15: `tool: str`; pydantic v2
does not coerce numbers to strings).  The exact wording is abstracted; no
claim depends on it. -/
def pydanticToolMsg : String :=
  "1 validation error for ToolCall: tool: Input should be a valid string"

/-- Modelled message of the pydantic v2 ValidationError raised when the
`args` field is not a dict (schemas.py line 16: `args: Dict[str, Any]`). -/
def pydanticArgsMsg : String :=
  "1 validation error for ToolCall: args: Input should be a valid dictionary"

/-- Pydantic v2 validation performed by `ToolCall(tool=..., args=...)`:
`tool` must be a string and `args` a string-keyed dict, else a
ValidationError is raised. -/
def mkToolCall (toolV argsV : PVal) : Except String ToolCall :=
  match toolV with
  | .str s =>
    match argsV with
    | .dict d => .ok ⟨s, d⟩
    | _ => .error pydanticArgsMsg
  | _ => .error pydanticToolMsg

/-- Python `sep.join(xs)`. -/
def pyJoin (sep : String) : List String → String
  | [] => ""
  | x :: xs => xs.foldl (fun acc y => acc ++ sep ++ y) x

/-- Python `repr` of a list of strings, as interpolated by
`ToolRegistry.get_tool` (tool_registry.py line 75). -/
def pyReprStrList (xs : List String) : String :=
  "[" ++ pyJoin ", " (xs.map (fun s => "\x27" ++ s ++ "\x27")) ++ "]"

/-- Indentation of `n` spaces for the serializer. -/
def indentStr (n : Nat) : String := String.mk (List.replicate n ' ')

/-- Fuelled worker modelling `json.dumps(v, indent=2)`; see `pySerialize`. -/
def dumpsVal : Nat → Nat → PVal → String
  | 0, _, _ => ""
  | _ + 1, _, .none => "null"
  | _ + 1, _, .bool b => if b then "true" else "false"
  | _ + 1, _, .int n => toString n
  | _ + 1, _, .str s => "\"" ++ s ++ "\""
  | _ + 1, _, .list [] => "[]"
  | fuel + 1, ind, .list (x :: xs) =>
    "[\n" ++ pyJoin ",\n"
      ((x :: xs).map (fun e => indentStr (ind + 2) ++ dumpsVal fuel (ind + 2) e))
      ++ "\n" ++ indentStr ind ++ "]"
  | _ + 1, _, .dict [] => "\x7b\x7d"
  | fuel + 1, ind, .dict (e :: es) =>
    "\x7b\n" ++ pyJoin ",\n"
      ((e :: es).map (fun p =>
        indentStr (ind + 2) ++ "\"" ++ p.1 ++ "\": " ++ dumpsVal fuel (ind + 2) p.2))
      ++ "\n" ++ indentStr ind ++ "\x7d"

mutual

/-- Nesting depth of a value, the exact fuel needed by `dumpsVal`. -/
def PVal.depth : PVal → Nat
  | .none => 1
  | .bool _ => 1
  | .int _ => 1
  | .str _ => 1
  | .list xs => 1 + depthList xs
  | .dict es => 1 + depthEntries es

/-- Maximal depth of a list of values. -/
def depthList : List PVal → Nat
  | [] => 0
  | x :: xs => max x.depth (depthList xs)

/-- Maximal depth of dict entries. -/
def depthEntries : List (String × PVal) → Nat
  | [] => 0
  | (_, v) :: es => max v.depth (depthEntries es)

end

/-- Models `json.dumps(output, indent=2)` (guardrails.py line 96) on the
values representable as `PVal`, where it cannot raise (so the `str` fallback
of line 98 is unreachable).  String escaping and the exact layout are
abstracted but deterministic; no claim depends on this text. -/
def pySerialize (v : PVal) : String := dumpsVal v.depth 0 v

/-- `validate_output` from guardrails.py lines 83-98: None renders as
"No result"; ints and floats (and bools, which are ints in Python) via
`str`; strings pass through; everything else via `json.dumps(., indent=2)`. -/
def validate_output : PVal → String
  | .none => "No result"
  | .bool b => if b then "True" else "False"
  | .int n => toString n
  | .str s => s
  | .list xs => pySerialize (.list xs)
  | .dict d => pySerialize (.dict d)

/-- Behaviour of a telemetry port instance: which optional attributes
`hasattr` finds on it, and the outcome of each operation (`.ok` for a normal
return, `.error msg` for a raised exception).  Outcomes of `log_event` may
depend on the event name; payload data never influences control flow in the
orchestrator and is omitted. -/
structure TelemetryOps where
  hasSetRequestId : Bool
  hasLogLLMCall : Bool
  hasStartSpan : Bool
  setRequestId : Except String Unit
  logEvent : String → Except String Unit
  logLLMCall : Except String Unit
  startSpan : Except String String
  endSpan : Except String Unit

/-- A telemetry port whose operations all return normally. -/
def goodTelemetry (t : TelemetryOps) : Prop :=
  t.setRequestId = .ok () ∧ (∀ e, t.logEvent e = .ok ()) ∧
  t.logLLMCall = .ok () ∧ (∃ s, t.startSpan = .ok s) ∧ t.endSpan = .ok ()

/-- An absent telemetry port, or one whose operations all return normally. -/
def goodOptTelemetry : Option TelemetryOps → Prop
  | Option.none => True
  | some t => goodTelemetry t

/-- Python truthiness of the `span_id` local of `_execute_tool_call`:
`None` and the empty string are falsy. -/
def spanTruthy : Option String → Bool
  | Option.none => false
  | some s => s != ""

/-- `if self.telemetry: self.telemetry.log_event(name, data)`. -/
def telLogEvent (tel : Option TelemetryOps) (name : String) : Except String Unit :=
  match tel with
  | some t => t.logEvent name
  | Option.none => .ok ()

/-- `if span_id and self.telemetry: self.telemetry.end_span(...)`: the
span-closing step, performed only when the span id is truthy and the port is
present. -/
def telEndSpan (tel : Option TelemetryOps) (spanId : Option String) :
    Except String Unit :=
  match tel with
  | some t => if spanTruthy spanId then t.endSpan else .ok ()
  | Option.none => .ok ()

/-- The not-found message built by `_execute_tool_call` (orchestrator.py
line 136): available tools joined with ", ". -/
def notFoundMsg (r : Registry) (t : String) : String :=
  "Tool \x27" ++ t ++ "\x27 not found. Available tools: " ++ pyJoin ", " (listTools r)

/-- The ValueError message of `ToolRegistry.get_tool` (tool_registry.py line
75), reachable only if the tool vanished between `has_tool` and `get_tool`. -/
def getToolMsg (r : Registry) (t : String) : String :=
  "Tool \x27" ++ t ++ "\x27 not found. Available tools: " ++ pyReprStrList (listTools r)

/-- The `except` handler of `_execute_tool_call` (orchestrator.py lines
176-195): builds "Tool execution error: str(e)", emits the `tool_error`
event and closes the span (either of which may itself raise and escape),
then returns the message as the step result.  `cnt` counts completed calls
of `tool.execute` and is threaded through unchanged. -/
def execExceptHandler (tel : Option TelemetryOps) (spanId : Option String)
    (e : String) (cnt : Nat) : Except String PVal × Nat :=
  match telLogEvent tel "tool_error" with
  | .error e2 => (.error e2, cnt)
  | .ok _ =>
    match telEndSpan tel spanId with
    | .error e3 => (.error e3, cnt)
    | .ok _ => (.ok (.str ("Tool execution error: " ++ e)), cnt)

/-- The `try` block of `_execute_tool_call` (orchestrator.py lines 132-174):
unknown tools yield the not-found message as the result without invoking
anything; otherwise the tool is executed and its result returned, after the
`tool_executed` event and the span end (exceptions anywhere in the block go
to `execExceptHandler`). -/
def execTryBody (reg : Registry) (tel : Option TelemetryOps)
    (spanId : Option String) (tc : ToolCall) : Except String PVal × Nat :=
  if hasTool reg tc.tool = false then
    match telEndSpan tel spanId with
    | .error e => execExceptHandler tel spanId e 0
    | .ok _ => (.ok (.str (notFoundMsg reg tc.tool)), 0)
  else
    match reg.lookup tc.tool with
    | Option.none => execExceptHandler tel spanId (getToolMsg reg tc.tool) 0
    | some tool =>
      match tool.exec tc.args with
      | .error e => execExceptHandler tel spanId e 1
      | .ok result =>
        match telLogEvent tel "tool_executed" with
        | .error e => execExceptHandler tel spanId e 1
        | .ok _ =>
          match telEndSpan tel spanId with
          | .error e => execExceptHandler tel spanId e 1
          | .ok _ => (.ok result, 1)

/-- `Orchestrator._execute_tool_call` (orchestrator.py lines 120-195): start
a span when the port has `start_span` (a failure there escapes, since it
happens before the `try`), then run the guarded body. -/
def executeToolCall (reg : Registry) (tel : Option TelemetryOps)
    (tc : ToolCall) : Except String PVal × Nat :=
  match tel with
  | some t =>
    if t.hasStartSpan then
      match t.startSpan with
      | .error e => (.error e, 0)
      | .ok sid => execTryBody reg tel (some sid) tc
    else execTryBody reg tel Option.none tc
  | Option.none => execTryBody reg tel Option.none tc

/-- Python `d.get(k, default)`. -/
def pyGet (d : List (String × PVal)) (k : String) (default : PVal) : PVal :=
  (d.lookup k).getD default

/-- `Orchestrator._process_plan` (orchestrator.py lines 94-118), with the
executor abstracted as `exec` (the source calls `self._execute_tool_call`):
a dict containing "tool" is turned into a `ToolCall` and executed; a string
goes through `extract_tool_call_from_text`; anything else (including the
failure of both) is returned as-is.  The pydantic validation of `ToolCall`
may raise, which propagates. -/
def processPlanWith (exec : ToolCall → Except String PVal × Nat)
    (parse : String → Option PVal) (plan : PVal) : Except String PVal × Nat :=
  match plan with
  | .dict d =>
    if (d.lookup "tool").isSome then
      match mkToolCall (pyGet d "tool" .none) (pyGet d "args" (.dict [])) with
      | .error e => (.error e, 0)
      | .ok tc => exec tc
    else (.ok plan, 0)
  | .str s =>
    match extract_tool_call_from_text parse s with
    | some td =>
      match td.lookup "tool" with
      | some tv =>
        match mkToolCall tv (pyGet td "args" (.dict [])) with
        | .error e => (.error e, 0)
        | .ok tc => exec tc
      | Option.none => (.error "\x27tool\x27", 0)
    | Option.none => (.ok plan, 0)
  | _ => (.ok plan, 0)

/-- The `except` handler of `Orchestrator.answer` (orchestrator.py lines
79-92): build "Error: str(e)", emit the `error` event (whose own failure
escapes to the caller), return the message. -/
def answerHandler (tel : Option TelemetryOps) (e : String) (cnt : Nat) :
    Except String String × Nat :=
  match telLogEvent tel "error" with
  | .error e2 => (.error e2, cnt)
  | .ok _ => (.ok ("Error: " ++ e), cnt)

/-- The `log_llm_call` emission of `answer` (orchestrator.py lines 58-59),
guarded by presence of the port and `hasattr`. -/
def telLogLLMCall (tel : Option TelemetryOps) : Except String Unit :=
  match tel with
  | some t => if t.hasLogLLMCall then t.logLLMCall else .ok ()
  | Option.none => .ok ()

/-- The `try` block of `Orchestrator.answer` (orchestrator.py lines 36-77):
sanitize, emit `question_received` and `available_tools`, call the LLM,
emit the LLM-call record, process the plan, validate the output.  Any
exception goes to `answerHandler`.  The second component counts completed
`tool.execute` invocations. -/
def answerTry (parse : String → Option PVal) (llm : String → Except String PVal)
    (reg : Registry) (tel : Option TelemetryOps) (q : String) :
    Except String String × Nat :=
  match telLogEvent tel "question_received" with
  | .error e => answerHandler tel e 0
  | .ok _ =>
    match telLogEvent tel "available_tools" with
    | .error e => answerHandler tel e 0
    | .ok _ =>
      match llm (sanitize_input q) with
      | .error e => answerHandler tel e 0
      | .ok plan =>
        match telLogLLMCall tel with
        | .error e => answerHandler tel e 0
        | .ok _ =>
          match processPlanWith (executeToolCall reg tel) parse plan with
          | (.error e, cnt) => answerHandler tel e cnt
          | (.ok r, cnt) => (.ok (validate_output r), cnt)

/-- The orchestrator as constructed by `Orchestrator.__init__`
(orchestrator.py lines 13-24): the injected collaborators plus the stored
`max_iterations` parameter (default 3). -/
structure Orchestrator where
  llm : String → Except String PVal
  registry : Registry
  telemetry : Option TelemetryOps
  maxIterations : Nat

/-- `Orchestrator.answer` (orchestrator.py lines 26-92).  The
`set_request_id` call (lines 33-34) happens before the `try` block, so its
failure escapes to the caller; everything else is guarded.  Result:
`.ok text` when the call returns normally, `.error msg` when an exception
escapes to the caller; paired with the number of completed tool
executions. -/
def answer (parse : String → Option PVal) (o : Orchestrator) (q : String) :
    Except String String × Nat :=
  match (match o.telemetry with
         | some t => if t.hasSetRequestId then t.setRequestId else .ok ()
         | Option.none => .ok ()) with
  | .error e => (.error e, 0)
  | .ok _ => answerTry parse o.llm o.registry o.telemetry q

/-! ## Shared concrete fixtures and helper lemmas -/

/-- A concrete calculator-like tool used in witnesses and counterexamples. -/
def toolA : Tool := ⟨"calc", "first", fun _ => .ok (.int 4)⟩

/-- A second tool with the same name but different description. -/
def toolB : Tool := ⟨"calc", "second", fun _ => .ok (.int 5)⟩

/-- A tool whose execution raises `boom`. -/
def toolBoom : Tool := ⟨"calc", "raises", fun _ => .error "boom"⟩

/-- Dropping a prefix of characters the predicate rejects is the identity. -/
theorem dropWhile_replicate_of_neg {p : Char → Bool} {c : Char}
    (h : p c = false) (n : Nat) :
    List.dropWhile p (List.replicate n c) = List.replicate n c := by
  cases n with
  | zero => rfl
  | succ k => simp [List.replicate_succ, List.dropWhile_cons, h]

/-- Dropping while the predicate holds skips a replicated accepted block. -/
theorem dropWhile_replicate_append {p : Char → Bool} {c : Char}
    (h : p c = true) (n : Nat) (l : List Char) :
    List.dropWhile p (List.replicate n c ++ l) = List.dropWhile p l := by
  induction n with
  | zero => simp
  | succ k ih => simp [List.replicate_succ, List.dropWhile_cons, h, ih]

/-! ## Claim C2 — retry backoff delay (spec-modelled: policies.py is absent) -/

/-- Claim C2 (amended): for every retry policy and attempt number `n ≥ 1`,
`Delay(n) = min(base_delay * exponential_base^(n-1), max_delay)` and
`Delay(n) ≤ max_delay`; `Delay` is non-decreasing in `n` provided
`base_delay ≥ 0` and `exponential_base ≥ 1` (the original claim asserted
monotonicity for every policy, which fails for `exponential_base < 1`); and
with `base_delay=1, exponential_base=2, max_delay=10` the values at
`n = 1..5` are `1, 2, 4, 8, 10`. -/
theorem c2_retry_delay :
    (∀ (p : RetryPolicy) (n : Nat),
      p.get_delay n = min (p.base_delay * p.exponential_base ^ (n - 1)) p.max_delay
      ∧ p.get_delay n ≤ p.max_delay)
    ∧ (∀ p : RetryPolicy, 0 ≤ p.base_delay → 1 ≤ p.exponential_base →
        ∀ n m : Nat, n ≤ m → p.get_delay n ≤ p.get_delay m)
    ∧ (∀ p : RetryPolicy, p.base_delay = 1 → p.exponential_base = 2 →
        p.max_delay = 10 →
        p.get_delay 1 = 1 ∧ p.get_delay 2 = 2 ∧ p.get_delay 3 = 4
        ∧ p.get_delay 4 = 8 ∧ p.get_delay 5 = 10) := by
  refine ⟨fun p n => ⟨rfl, min_le_right _ _⟩, fun p hb he n m hnm => ?_, ?_⟩
  · unfold RetryPolicy.get_delay
    refine min_le_min (mul_le_mul_of_nonneg_left ?_ hb) le_rfl
    exact pow_le_pow_right₀ he (by omega)
  · rintro ⟨ma, bd, eb, md⟩ hb he hm
    simp only at hb he hm
    subst hb he hm
    refine ⟨?_, ?_, ?_, ?_, ?_⟩ <;> norm_num [RetryPolicy.get_delay, pow_succ]

/-- Witness for C2: the monotonicity clause applied to the default test
policy at attempts 2 and 5, and the concrete-value clause at attempt 4. -/
theorem c2_retry_delay_witness :
    RetryPolicy.get_delay ⟨3, 1, 2, 10⟩ 2 ≤ RetryPolicy.get_delay ⟨3, 1, 2, 10⟩ 5
    ∧ RetryPolicy.get_delay ⟨3, 1, 2, 10⟩ 4 = 8 :=
  ⟨c2_retry_delay.2.1 ⟨3, 1, 2, 10⟩ (by norm_num) (by norm_num) 2 5 (by norm_num),
   (c2_retry_delay.2.2 ⟨3, 1, 2, 10⟩ rfl rfl rfl).2.2.2.1⟩

/-- Counterexample for C2 as stated: with `base_delay = 1`,
`exponential_base = 1/2`, `max_delay = 10`, the delay strictly decreases
from attempt 1 to attempt 2, so `Delay` is not non-decreasing for every
retry policy. -/
theorem c2_counterexample :
    RetryPolicy.get_delay ⟨3, 1, (1 : Rat) / 2, 10⟩ 2
      < RetryPolicy.get_delay ⟨3, 1, (1 : Rat) / 2, 10⟩ 1 := by
  norm_num [RetryPolicy.get_delay]

/-! ## Claim C7 — sanitized length under the maximum -/

/-- Claim C7 (amended): for every input whose stripped text is longer than
the 10000-character maximum, the sanitized text has length exactly 10000.
(The original claim measured the raw input length, but `sanitize_input`
strips before truncating, so an over-long input that shrinks below the
limit under stripping is returned at its stripped length.) -/
theorem c7_sanitize_truncates (text : String)
    (h : 10000 < (pyStrip text).length) :
    (sanitize_input text).length = 10000 := by
  unfold sanitize_input
  rw [if_pos h]
  show ((pyStrip text).toList.take 10000).length = 10000
  rw [List.length_take]
  exact Nat.min_eq_left (Nat.le_of_lt h)

/-- Witness for C7 at the 10001-character input `aaaa...a`. -/
theorem c7_sanitize_truncates_witness :
    10000 < (pyStrip (String.mk (List.replicate 10001 'a'))).length
    ∧ (sanitize_input (String.mk (List.replicate 10001 'a'))).length = 10000 := by
  have hstrip : pyStrip (String.mk (List.replicate 10001 'a'))
      = String.mk (List.replicate 10001 'a') := by
    unfold pyStrip
    rw [show (String.mk (List.replicate 10001 'a')).toList
          = List.replicate 10001 'a' from rfl,
        dropWhile_replicate_of_neg rfl, List.reverse_replicate,
        dropWhile_replicate_of_neg rfl, List.reverse_replicate]
  have hlen : 10000 < (pyStrip (String.mk (List.replicate 10001 'a'))).length := by
    rw [hstrip]
    show 10000 < (List.replicate 10001 'a').length
    rw [List.length_replicate]
    omega
  exact ⟨hlen, c7_sanitize_truncates _ hlen⟩

/-- Counterexample for C7 as stated: the input `a` followed by 10000 spaces
is 10001 characters long, yet its sanitized form is `a`, of length 1, not
10000: stripping happens before the length test. -/
theorem c7_counterexample :
    10000 < (String.mk ('a' :: List.replicate 10000 ' ')).length
    ∧ (sanitize_input (String.mk ('a' :: List.replicate 10000 ' '))).length ≠ 10000 := by
  have hstrip : pyStrip (String.mk ('a' :: List.replicate 10000 ' ')) = "a" := by
    unfold pyStrip
    rw [show (String.mk ('a' :: List.replicate 10000 ' ')).toList
          = 'a' :: List.replicate 10000 ' ' from rfl]
    rw [List.dropWhile_cons_of_neg (by decide), List.reverse_cons,
        List.reverse_replicate, dropWhile_replicate_append rfl]
    rfl
  constructor
  · show 10000 < ('a' :: List.replicate 10000 ' ').length
    rw [List.length_cons, List.length_replicate]
    omega
  · unfold sanitize_input
    rw [hstrip]
    norm_num

/-! ## Claim C6 — duplicate registration -/

/-- Claim C6 (amended): for the core registry (tool_registry.py), registering
a capability whose identifier is already registered leaves the registry
unchanged, so lookups and the name list are unchanged.  (The original claim
also covered the legacy registry of registry.py, whose `register` is a plain
dict assignment and silently overwrites the existing entry.) -/
theorem c6_core_register_noop (r : Registry) (t : Tool)
    (h : hasTool r t.name = true) :
    coreRegister r t = r
    ∧ (coreRegister r t).lookup t.name = r.lookup t.name
    ∧ listTools (coreRegister r t) = listTools r := by
  have heq : coreRegister r t = r := by
    unfold coreRegister
    unfold hasTool at h
    rw [if_pos h]
  exact ⟨heq, by rw [heq], by rw [heq]⟩

/-- Witness for C6: re-registering a tool named `calc` into a core registry
that already holds one is a no-op. -/
theorem c6_core_register_noop_witness :
    hasTool [("calc", toolA)] toolB.name = true
    ∧ coreRegister [("calc", toolA)] toolB = [("calc", toolA)] :=
  ⟨rfl, (c6_core_register_noop [("calc", toolA)] toolB rfl).1⟩

/-- Counterexample for C6 as stated: the legacy registry (registry.py lines
32-34), named as a source of the claim, does overwrite: after re-registering
a second `calc` tool, lookup returns the new capability, not the original. -/
theorem c6_counterexample :
    ((legacyRegister [("calc", toolA)] toolB).lookup "calc").map Tool.description
      = some "second"
    ∧ ((legacyRegister [("calc", toolA)] toolB).lookup "calc").map Tool.description
      ≠ some "first" := by
  constructor
  · rfl
  · intro hcontra
    simp [legacyRegister, toolA, toolB] at hcontra

/-! ## Claim C3 — unparseable free text degrades to a final answer -/

/-- If no candidate in the list parses, the repair loop returns None. -/
theorem firstParse_eq_none (parse : String → Option PVal) :
    ∀ l : List String, (∀ r ∈ l, parse r = Option.none) →
      firstParse parse l = Option.none := by
  intro l hl
  induction l with
  | nil => rfl
  | cons c cs ih =>
    unfold firstParse
    rw [hl c (by simp)]
    exact ih fun r hr => hl r (by simp [hr])

/-- If the raw text and every repaired candidate fail to parse, then
`repair_json` returns None. -/
theorem repairJson_eq_none (parse : String → Option PVal) (s : String)
    (hparse : parse s = Option.none)
    (hrepairs : ∀ r ∈ repairCandidates s, parse r = Option.none) :
    repairJson parse s = Option.none := by
  unfold repairJson
  cases hse : (s == "") with
  | true => rfl
  | false =>
    rw [if_neg (by simp [hse]), hparse]
    exact firstParse_eq_none parse _ hrepairs

/-- Claim C3: a free-text plan candidate that fails structured parsing (on
the raw text and after every attempted repair) and matches no
`TOOL:name ARG="value"` pattern is interpreted without raising, no tool is
invoked, and the candidate text itself becomes the result, which the output
validator passes through unchanged as the final answer. -/
theorem c3_freetext_degrades_to_final_answer
    (parse : String → Option PVal) (exec : ToolCall → Except String PVal × Nat)
    (s : String)
    (hparse : parse s = Option.none)
    (hrepairs : ∀ r ∈ repairCandidates s, parse r = Option.none)
    (hpattern : searchTOOL s.toList = Option.none) :
    processPlanWith exec parse (.str s) = (.ok (.str s), 0)
    ∧ validate_output (.str s) = s := by
  have hpr : patternRecover s = Option.none := by
    unfold patternRecover
    rw [hpattern]
  have hex : extract_tool_call_from_text parse s = Option.none := by
    unfold extract_tool_call_from_text
    rw [repairJson_eq_none parse s hparse hrepairs]
    exact hpr
  refine ⟨?_, rfl⟩
  show (match extract_tool_call_from_text parse s with
    | some td =>
      match td.lookup "tool" with
      | some tv =>
        match mkToolCall tv (pyGet td "args" (.dict [])) with
        | .error e => (Except.error e, 0)
        | .ok tc => exec tc
      | Option.none => (Except.error "\x27tool\x27", 0)
    | Option.none => (Except.ok (PVal.str s), 0)) = (Except.ok (PVal.str s), 0)
  rw [hex]

/-- Witness for C3: with a parser rejecting everything and no pattern in the
text, the plan text `Paris is the capital of France.` survives unchanged,
whatever the executor would do. -/
theorem c3_freetext_degrades_to_final_answer_witness :
    searchTOOL "Paris is the capital of France.".toList = Option.none
    ∧ processPlanWith (fun _ => (.ok PVal.none, 1)) (fun _ => Option.none)
        (.str "Paris is the capital of France.")
      = (.ok (.str "Paris is the capital of France."), 0) :=
  ⟨rfl,
   (c3_freetext_degrades_to_final_answer (fun _ => Option.none)
     (fun _ => (.ok PVal.none, 1)) "Paris is the capital of France."
     rfl (fun _ _ => rfl) rfl).1⟩

/-! ## Claim C10 — pattern recovery lowercases the argument name -/

/-- Soundness of the anchored pattern match: a successful match decomposes
the input into the literal `TOOL:`, the verbatim tool name, mandatory
whitespace, the verbatim argument name, `="`, the verbatim quote-free value
and the closing quote. -/
theorem matchTOOLAt_sound {l t a v : List Char}
    (h : matchTOOLAt l = some (t, a, v)) :
    ∃ ws rest,
      l = 'T' :: 'O' :: 'O' :: 'L' :: ':' ::
          (t ++ (ws ++ (a ++ '=' :: '"' :: (v ++ '"' :: rest))))
      ∧ ws ≠ [] ∧ ws.all isPySpace = true
      ∧ t ≠ [] ∧ t.all wordChar = true
      ∧ a ≠ [] ∧ a.all wordChar = true
      ∧ v.all (fun c => c != '"') = true := by
  unfold matchTOOLAt at h
  split at h
  case h_2 => exact Option.noConfusion h
  case h_1 rest0 =>
    simp only [] at h
    split_ifs at h with h1 h2 h3
    split at h
    case _ c3 c4 r4 heq3 =>
      split_ifs at h with h4
      simp only [Bool.and_eq_true, beq_iff_eq] at h4
      obtain ⟨hc3, hc4⟩ := h4
      subst hc3
      subst hc4
      split at h
      case _ c6 r6 heq5 =>
        split_ifs at h with h5
        simp only [beq_iff_eq] at h5
        subst h5
        have hp := Option.some.inj h
        have ht : List.takeWhile wordChar rest0 = t := congrArg Prod.fst hp
        have ha : List.takeWhile wordChar
            (List.dropWhile isPySpace (List.dropWhile wordChar rest0)) = a :=
          congrArg Prod.fst (congrArg Prod.snd hp)
        have hv : List.takeWhile (fun c => c != '"') r4 = v :=
          congrArg Prod.snd (congrArg Prod.snd hp)
        refine ⟨List.takeWhile isPySpace (List.dropWhile wordChar rest0), r6,
          ?_, ?_, List.all_takeWhile, ?_, ?_, ?_, ?_, ?_⟩
        · have e1 : List.takeWhile wordChar rest0 ++ List.dropWhile wordChar rest0
              = rest0 := List.takeWhile_append_dropWhile ..
          have e2 : List.takeWhile isPySpace (List.dropWhile wordChar rest0)
              ++ List.dropWhile isPySpace (List.dropWhile wordChar rest0)
              = List.dropWhile wordChar rest0 := List.takeWhile_append_dropWhile ..
          have e3 : List.takeWhile wordChar
                (List.dropWhile isPySpace (List.dropWhile wordChar rest0))
              ++ List.dropWhile wordChar
                (List.dropWhile isPySpace (List.dropWhile wordChar rest0))
              = List.dropWhile isPySpace (List.dropWhile wordChar rest0) :=
            List.takeWhile_append_dropWhile ..
          have e4 : List.takeWhile (fun c => c != '"') r4
              ++ List.dropWhile (fun c => c != '"') r4 = r4 :=
            List.takeWhile_append_dropWhile ..
          have e4a : r4 = v ++ ('"' :: r6) := by
            rw [← e4, heq5, hv]
          have e3a : List.dropWhile isPySpace (List.dropWhile wordChar rest0)
              = a ++ ('=' :: '"' :: (v ++ '"' :: r6)) := by
            rw [← e3, heq3, ha, e4a]
          have e2a : List.dropWhile wordChar rest0
              = List.takeWhile isPySpace (List.dropWhile wordChar rest0)
                ++ (a ++ ('=' :: '"' :: (v ++ '"' :: r6))) := by
            rw [← e3a, e2]
          conv_lhs => rw [← e1, ht, e2a]
        · exact fun hEq => h2 (by rw [hEq]; rfl)
        · rw [← ht]
          exact fun hEq => h1 (by rw [hEq]; rfl)
        · rw [← ht]
          exact List.all_takeWhile
        · rw [← ha]
          exact fun hEq => h3 (by rw [hEq]; rfl)
        · rw [← ha]
          exact List.all_takeWhile
        · rw [← hv]
          exact List.all_takeWhile
      case _ => exact Option.noConfusion h
    case _ => exact Option.noConfusion h

/-- Soundness of the left-to-right search: a successful search is a
successful anchored match on some suffix. -/
theorem searchTOOL_sound {l : List Char} {r : List Char × List Char × List Char}
    (h : searchTOOL l = some r) :
    ∃ pre suf, l = pre ++ suf ∧ matchTOOLAt suf = some r := by
  induction l with
  | nil => exact Option.noConfusion h
  | cons c rest ih =>
    unfold searchTOOL at h
    cases hm : matchTOOLAt (c :: rest) with
    | some r2 =>
      rw [hm] at h
      have h2 : some r2 = some r := h
      exact ⟨[], c :: rest, rfl, by rw [hm, Option.some.inj h2]⟩
    | none =>
      rw [hm] at h
      have h2 : searchTOOL rest = some r := h
      obtain ⟨pre, suf, heq, hmat⟩ := ih h2
      exact ⟨c :: pre, suf, by simp [heq], hmat⟩

/-- Claim C10: whenever a tool call is recovered from free text through the
literal `TOOL:<name> <ARG>="<value>"` pattern (the structured-parse branch
having not fired), the resulting dict maps "tool" to the captured name
verbatim and "args" to a single-entry dict whose key is the lowercased
captured argument name and whose value is the captured value verbatim; the
captures appear verbatim in the original text in pattern position. -/
theorem c10_pattern_lowercases_argument_name
    (parse : String → Option PVal) (text : String) (t a v : List Char)
    (hjson : ∀ r, repairJson parse text = some r →
      (r.truthy && validate_tool_call r) = false)
    (hpat : searchTOOL text.toList = some (t, a, v)) :
    extract_tool_call_from_text parse text
      = some [("tool", .str (String.mk t)),
              ("args", .dict [(pyLower (String.mk a), .str (String.mk v))])]
    ∧ ∃ pre ws rest, text.toList
        = pre ++ 'T' :: 'O' :: 'O' :: 'L' :: ':' ::
            (t ++ (ws ++ (a ++ '=' :: '"' :: (v ++ '"' :: rest))))
        ∧ ws ≠ [] ∧ ws.all isPySpace = true := by
  have hpr : patternRecover text
      = some [("tool", .str (String.mk t)),
              ("args", .dict [(pyLower (String.mk a), .str (String.mk v))])] := by
    unfold patternRecover
    rw [hpat]
  constructor
  · unfold extract_tool_call_from_text
    split
    case h_1 r hr =>
      rw [hjson r hr]
      simp only [Bool.false_eq_true, if_false]
      exact hpr
    case h_2 => exact hpr
  · obtain ⟨pre, suf, heq, hmat⟩ := searchTOOL_sound hpat
    obtain ⟨ws, rest, hsuf, hws, hwsall, _⟩ := matchTOOLAt_sound hmat
    exact ⟨pre, ws, rest, by rw [heq, hsuf], hws, hwsall⟩

/-- Witness for C10 on the text `use TOOL:calc EXPR="2+2"` with a parser
rejecting everything: the argument key comes out lowercased as `expr`. -/
theorem c10_pattern_lowercases_argument_name_witness :
    searchTOOL "use TOOL:calc EXPR=\"2+2\"".toList
      = some (['c', 'a', 'l', 'c'], ['E', 'X', 'P', 'R'], ['2', '+', '2'])
    ∧ extract_tool_call_from_text (fun _ => Option.none) "use TOOL:calc EXPR=\"2+2\""
      = some [("tool", .str "calc"), ("args", .dict [("expr", .str "2+2")])] := by
  refine ⟨rfl, ?_⟩
  have h := (c10_pattern_lowercases_argument_name (fun _ => Option.none)
    "use TOOL:calc EXPR=\"2+2\"" ['c', 'a', 'l', 'c'] ['E', 'X', 'P', 'R']
    ['2', '+', '2']
    (fun r hr => by
      rw [show repairJson (fun _ => Option.none) "use TOOL:calc EXPR=\"2+2\""
            = Option.none from rfl] at hr
      exact Option.noConfusion hr)
    rfl).1
  rw [h]
  rfl

/-! ## Claim C5 — unknown capability: error surfaced, nothing executed -/

/-- String concatenation concatenates the character data. -/
theorem pyStr_toList_append (s t : String) :
    (s ++ t).toList = s.toList ++ t.toList := by
  cases s
  cases t
  rfl

/-- Every string fed into the join accumulator stays an infix of the
result. -/
theorem infix_foldl_join (sep : String) :
    ∀ (tl : List String) (acc x : String),
      (x.toList <:+: acc.toList ∨ x ∈ tl) →
      x.toList <:+: (tl.foldl (fun a y => a ++ sep ++ y) acc).toList := by
  intro tl
  induction tl with
  | nil =>
    intro acc x h
    rcases h with hi | hmem
    · exact hi
    · exact absurd hmem (List.not_mem_nil x)
  | cons hd tl2 ih =>
    intro acc x h
    apply ih
    rcases h with hi | hmem
    · left
      refine hi.trans ⟨[], (sep ++ hd).toList, ?_⟩
      simp [pyStr_toList_append]
    · rcases List.mem_cons.mp hmem with rfl | hmem2
      · left
        refine ⟨(acc ++ sep).toList, [], ?_⟩
        simp [pyStr_toList_append]
      · right
        exact hmem2

/-- Every element of a joined list is an infix of the Python join. -/
theorem infix_pyJoin {xs : List String} {x : String} (hx : x ∈ xs) :
    x.toList <:+: (pyJoin ", " xs).toList := by
  cases xs with
  | nil => exact absurd hx (List.not_mem_nil x)
  | cons hd tl =>
    unfold pyJoin
    rcases List.mem_cons.mp hx with rfl | hmem
    · exact infix_foldl_join ", " tl x x (Or.inl (List.infix_refl _))
    · exact infix_foldl_join ", " tl hd x (Or.inr hmem)

/-- An absent telemetry port logs events trivially. -/
theorem telLogEvent_none (n : String) : telLogEvent Option.none n = .ok () := rfl

/-- An absent telemetry port closes spans trivially. -/
theorem telEndSpan_none (spanId : Option String) :
    telEndSpan Option.none spanId = .ok () := rfl

/-- An absent telemetry port records LLM calls trivially. -/
theorem telLogLLMCall_none : telLogLLMCall Option.none = .ok () := rfl

/-- A well-behaved telemetry port logs events without raising. -/
theorem telLogEvent_good (t : TelemetryOps) (ht : goodTelemetry t)
    (n : String) : telLogEvent (some t) n = .ok () := ht.2.1 n

/-- A well-behaved telemetry port closes spans without raising. -/
theorem telEndSpan_good (t : TelemetryOps) (ht : goodTelemetry t)
    (spanId : Option String) : telEndSpan (some t) spanId = .ok () := by
  show (if spanTruthy spanId = true then t.endSpan else Except.ok ()) = Except.ok ()
  by_cases hsp : spanTruthy spanId = true
  · rw [if_pos hsp]
    exact ht.2.2.2.2
  · rw [if_neg hsp]

/-- A well-behaved telemetry port records LLM calls without raising. -/
theorem telLogLLMCall_good (t : TelemetryOps) (ht : goodTelemetry t) :
    telLogLLMCall (some t) = .ok () := by
  show (if t.hasLogLLMCall = true then t.logLLMCall else Except.ok ()) = Except.ok ()
  by_cases h : t.hasLogLLMCall = true
  · rw [if_pos h]
    exact ht.2.2.1
  · rw [if_neg h]

/-- Event logging is a no-op result for absent-or-good telemetry. -/
theorem telLogEvent_goodOpt (tel : Option TelemetryOps)
    (ht : goodOptTelemetry tel) (n : String) : telLogEvent tel n = .ok () := by
  cases tel with
  | none => rfl
  | some t => exact telLogEvent_good t ht n

/-- Span closing is a no-op result for absent-or-good telemetry. -/
theorem telEndSpan_goodOpt (tel : Option TelemetryOps)
    (ht : goodOptTelemetry tel) (spanId : Option String) :
    telEndSpan tel spanId = .ok () := by
  cases tel with
  | none => rfl
  | some t => exact telEndSpan_good t ht spanId

/-- The guarded body surfaces the not-found message without executing when
the tool is absent and telemetry is absent or well-behaved. -/
theorem execTryBody_notfound (reg : Registry) (tel : Option TelemetryOps)
    (spanId : Option String) (tc : ToolCall)
    (htel : goodOptTelemetry tel)
    (habs : hasTool reg tc.tool = false) :
    execTryBody reg tel spanId tc = (.ok (.str (notFoundMsg reg tc.tool)), 0) := by
  unfold execTryBody
  rw [if_pos habs, telEndSpan_goodOpt tel htel spanId]

/-- Claim C5: executing an invocation naming an unregistered capability
returns the not-found message as the step result (never raises it), the
capability is never invoked (zero executions, hence never retried), and the
message text contains every currently registered capability name. -/
theorem c5_unknown_tool_surfaces_not_found
    (reg : Registry) (tel : Option TelemetryOps) (tc : ToolCall)
    (htel : goodOptTelemetry tel)
    (habs : hasTool reg tc.tool = false) :
    executeToolCall reg tel tc = (.ok (.str (notFoundMsg reg tc.tool)), 0)
    ∧ ∀ n ∈ listTools reg, n.toList <:+: (notFoundMsg reg tc.tool).toList := by
  constructor
  · unfold executeToolCall
    cases htel2 : tel with
    | none => exact execTryBody_notfound reg _ Option.none tc (by rw [← htel2]; exact htel) habs
    | some t =>
      have htel3 : goodOptTelemetry (some t) := by rw [← htel2]; exact htel
      obtain ⟨-, -, -, ⟨s, hs⟩, -⟩ := htel3
      by_cases hss : t.hasStartSpan = true
      · simp only [hss, if_true, hs]
        exact execTryBody_notfound reg _ (some s) tc (by rw [← htel2]; exact htel) habs
      · simp only [hss, if_false, Bool.false_eq_true]
        exact execTryBody_notfound reg _ Option.none tc (by rw [← htel2]; exact htel) habs
  · intro n hn
    unfold notFoundMsg
    have h1 : n.toList <:+: (pyJoin ", " (listTools reg)).toList := infix_pyJoin hn
    refine h1.trans ⟨("Tool \x27" ++ tc.tool ++ "\x27 not found. Available tools: ").toList, [], ?_⟩
    simp [pyStr_toList_append]

/-- Witness for C5: a registry holding only `calc`, asked for `weather`,
answers with the not-found text listing `calc` and performs no execution. -/
theorem c5_unknown_tool_surfaces_not_found_witness :
    goodOptTelemetry Option.none
    ∧ hasTool [("calc", toolA)] "weather" = false
    ∧ executeToolCall [("calc", toolA)] Option.none ⟨"weather", []⟩
      = (.ok (.str "Tool \x27weather\x27 not found. Available tools: calc"), 0)
    ∧ "calc".toList <:+:
        (notFoundMsg [("calc", toolA)] "weather").toList := by
  refine ⟨trivial, rfl, ?_, ?_⟩
  · exact (c5_unknown_tool_surfaces_not_found [("calc", toolA)] Option.none
      ⟨"weather", []⟩ trivial rfl).1
  · exact (c5_unknown_tool_surfaces_not_found [("calc", toolA)] Option.none
      ⟨"weather", []⟩ trivial rfl).2 "calc" (by simp [listTools])

/-! ## Claim C4 — structured plan candidates -/

/-- Claim C4 (amended): for every structured plan candidate whose "tool"
field holds a string and whose "args" field, when present, holds a
string-keyed map (defaulting to the empty map when absent), plan processing
hands the executor exactly the invocation with that name and argument map.
(The original claim covered every candidate with a "tool" field; for other
shapes the pydantic validation of `ToolCall` raises instead, see the
counterexample.) -/
theorem c4_structured_plan_roundtrip
    (exec : ToolCall → Except String PVal × Nat) (parse : String → Option PVal)
    (d : List (String × PVal)) (name : String) (args : List (String × PVal))
    (htool : d.lookup "tool" = some (.str name))
    (hargs : pyGet d "args" (.dict []) = .dict args) :
    processPlanWith exec parse (.dict d) = exec ⟨name, args⟩ := by
  have hsome : (d.lookup "tool").isSome = true := by rw [htool]; rfl
  have hget : pyGet d "tool" .none = .str name := by
    unfold pyGet
    rw [htool]
    rfl
  simp only [processPlanWith]
  rw [if_pos hsome, hget, hargs]
  rfl

/-- Witness for C4: the candidate
`{"tool": "calc", "args": {"expr": "2+2"}}` reaches the executor as exactly
that invocation. -/
theorem c4_structured_plan_roundtrip_witness :
    ([("tool", PVal.str "calc"), ("args", PVal.dict [("expr", PVal.str "2+2")])].lookup
        "tool" = some (PVal.str "calc"))
    ∧ processPlanWith (fun tc => (.ok (.str tc.tool), 1)) (fun _ => Option.none)
        (.dict [("tool", .str "calc"), ("args", .dict [("expr", .str "2+2")])])
      = (.ok (.str "calc"), 1) := by
  refine ⟨rfl, ?_⟩
  rw [c4_structured_plan_roundtrip (fun tc => (.ok (.str tc.tool), 1))
    (fun _ => Option.none)
    [("tool", .str "calc"), ("args", .dict [("expr", .str "2+2")])]
    "calc" [("expr", .str "2+2")] rfl rfl]

/-- Counterexample for C4 as stated: the candidate
`{"tool": "calc", "args": 5}` contains a "tool" field, yet interpretation
does not yield an invocation at all — pydantic validation of `args` raises,
whatever the executor would have returned. -/
theorem c4_counterexample :
    processPlanWith (fun _ => (.ok (.str "ran"), 1)) (fun _ => Option.none)
      (.dict [("tool", .str "calc"), ("args", .int 5)])
      = (.error pydanticArgsMsg, 0) := rfl

/-! ## Claim C9 — single-shot execution, max_iterations never consulted -/

/-- The executor exception handler preserves the execution count. -/
theorem execExceptHandler_snd (tel : Option TelemetryOps)
    (spanId : Option String) (e : String) (cnt : Nat) :
    (execExceptHandler tel spanId e cnt).2 = cnt := by
  unfold execExceptHandler
  repeat' split
  all_goals rfl

/-- The guarded executor body performs at most one tool execution. -/
theorem execTryBody_snd (reg : Registry) (tel : Option TelemetryOps)
    (spanId : Option String) (tc : ToolCall) :
    (execTryBody reg tel spanId tc).2 ≤ 1 := by
  unfold execTryBody
  repeat' split
  all_goals simp [execExceptHandler_snd]

/-- The executor performs at most one tool execution. -/
theorem executeToolCall_snd (reg : Registry) (tel : Option TelemetryOps)
    (tc : ToolCall) :
    (executeToolCall reg tel tc).2 ≤ 1 := by
  unfold executeToolCall
  repeat' split
  all_goals first
    | simp
    | exact execTryBody_snd ..

/-- Plan processing performs at most one tool execution whenever the
executor it delegates to does. -/
theorem processPlanWith_snd (exec : ToolCall → Except String PVal × Nat)
    (parse : String → Option PVal) (plan : PVal)
    (hexec : ∀ tc, (exec tc).2 ≤ 1) :
    (processPlanWith exec parse plan).2 ≤ 1 := by
  unfold processPlanWith
  repeat' split
  all_goals first
    | simp
    | exact hexec _

/-- The top-level exception handler preserves the execution count. -/
theorem answerHandler_snd (tel : Option TelemetryOps) (e : String) (cnt : Nat) :
    (answerHandler tel e cnt).2 = cnt := by
  unfold answerHandler
  repeat' split
  all_goals rfl

/-- The guarded body of `answer` performs at most one tool execution. -/
theorem answerTry_snd (parse : String → Option PVal)
    (llm : String → Except String PVal) (reg : Registry)
    (tel : Option TelemetryOps) (q : String) :
    (answerTry parse llm reg tel q).2 ≤ 1 := by
  have hpp : ∀ plan, (processPlanWith (executeToolCall reg tel) parse plan).2 ≤ 1 :=
    fun plan => processPlanWith_snd _ _ _ (fun tc => executeToolCall_snd reg tel tc)
  unfold answerTry
  repeat' split
  all_goals try rw [answerHandler_snd]
  all_goals try exact Nat.zero_le 1
  all_goals {
    rename_i plan hplan x1 a1 h4 x2 e2 cnt2 heq2
    have h3 := hpp plan
    rw [heq2] at h3
    exact h3 }

/-- Claim C9: the `max_iterations` parameter stored by the constructor is
never consulted — `answer` returns identical results for any value of it —
and every call of `answer` performs at most one capability execution
(single plan-then-execute round). -/
theorem c9_single_shot_max_iterations_unused :
    (∀ (parse : String → Option PVal) (o : Orchestrator) (q : String) (m : Nat),
      answer parse { o with maxIterations := m } q = answer parse o q)
    ∧ (∀ (parse : String → Option PVal) (o : Orchestrator) (q : String),
      (answer parse o q).2 ≤ 1) := by
  constructor
  · intro parse o q m
    cases o
    rfl
  · intro parse o q
    unfold answer
    repeat' split
    all_goals first
      | simp
      | exact answerTry_snd ..

/-! ## Claim C8 — telemetry must not affect the answer path -/

/-- The executor exception handler returns the wrapped message for
absent-or-good telemetry. -/
theorem execExceptHandler_goodOpt (tel : Option TelemetryOps)
    (ht : goodOptTelemetry tel) (spanId : Option String) (e : String)
    (cnt : Nat) :
    execExceptHandler tel spanId e cnt
      = (.ok (.str ("Tool execution error: " ++ e)), cnt) := by
  unfold execExceptHandler
  rw [telLogEvent_goodOpt tel ht, telEndSpan_goodOpt tel ht spanId]

/-- With absent-or-good telemetry, the guarded executor body behaves as with
no telemetry at all. -/
theorem execTryBody_goodOpt_eq (reg : Registry) (tel : Option TelemetryOps)
    (spanId : Option String) (tc : ToolCall) (ht : goodOptTelemetry tel) :
    execTryBody reg tel spanId tc
      = execTryBody reg Option.none Option.none tc := by
  unfold execTryBody
  simp only [telEndSpan_goodOpt tel ht, telLogEvent_goodOpt tel ht,
    telEndSpan_none, telLogEvent_none,
    execExceptHandler_goodOpt tel ht,
    execExceptHandler_goodOpt Option.none trivial]

/-- With absent-or-good telemetry, the executor behaves as with no
telemetry at all. -/
theorem executeToolCall_goodOpt_eq (reg : Registry)
    (tel : Option TelemetryOps) (tc : ToolCall) (ht : goodOptTelemetry tel) :
    executeToolCall reg tel tc = executeToolCall reg Option.none tc := by
  cases tel with
  | none => rfl
  | some t =>
    have ht2 : goodTelemetry t := ht
    unfold executeToolCall
    obtain ⟨s, hs⟩ := ht2.2.2.2.1
    by_cases hss : t.hasStartSpan = true
    · simp only [hss, if_true, hs]
      exact execTryBody_goodOpt_eq reg (some t) (some s) tc ht
    · simp only [hss, if_false, Bool.false_eq_true]
      exact execTryBody_goodOpt_eq reg (some t) Option.none tc ht

/-- Plan processing only depends on the executor through its results. -/
theorem processPlanWith_congr (exec1 exec2 : ToolCall → Except String PVal × Nat)
    (h : ∀ tc, exec1 tc = exec2 tc) (parse : String → Option PVal) (plan : PVal) :
    processPlanWith exec1 parse plan = processPlanWith exec2 parse plan := by
  unfold processPlanWith
  repeat' split
  all_goals first
    | rfl
    | exact h _

/-- The top-level handler returns the Error text for absent-or-good
telemetry. -/
theorem answerHandler_goodOpt (tel : Option TelemetryOps)
    (ht : goodOptTelemetry tel) (e : String) (cnt : Nat) :
    answerHandler tel e cnt = (.ok ("Error: " ++ e), cnt) := by
  unfold answerHandler
  rw [telLogEvent_goodOpt tel ht]

/-- The top-level handler with no telemetry. -/
theorem answerHandler_none (e : String) (cnt : Nat) :
    answerHandler Option.none e cnt = (.ok ("Error: " ++ e), cnt) := rfl

/-- LLM-call recording is a no-op result for absent-or-good telemetry. -/
theorem telLogLLMCall_goodOpt (tel : Option TelemetryOps)
    (ht : goodOptTelemetry tel) : telLogLLMCall tel = .ok () := by
  cases tel with
  | none => rfl
  | some t => exact telLogLLMCall_good t ht

/-- With absent-or-good telemetry, the guarded body of `answer` behaves as
with no telemetry at all. -/
theorem answerTry_goodOpt_eq (parse : String → Option PVal)
    (llm : String → Except String PVal) (reg : Registry)
    (tel : Option TelemetryOps) (q : String) (ht : goodOptTelemetry tel) :
    answerTry parse llm reg tel q = answerTry parse llm reg Option.none q := by
  have hexec : ∀ plan, processPlanWith (executeToolCall reg tel) parse plan
      = processPlanWith (executeToolCall reg Option.none) parse plan :=
    fun plan => processPlanWith_congr _ _
      (fun tc => executeToolCall_goodOpt_eq reg tel tc ht) parse plan
  unfold answerTry
  simp only [telLogEvent_goodOpt tel ht, telLogEvent_none,
    telLogLLMCall_goodOpt tel ht, telLogLLMCall_none,
    answerHandler_goodOpt tel ht, answerHandler_none, hexec]

/-- With absent-or-good telemetry, `answer` behaves as with no telemetry at
all: the telemetry port is invisible on the answer path. -/
theorem answer_goodOpt_eq (parse : String → Option PVal)
    (llm : String → Except String PVal) (reg : Registry) (m : Nat)
    (tel : Option TelemetryOps) (q : String) (ht : goodOptTelemetry tel) :
    answer parse ⟨llm, reg, tel, m⟩ q
      = answer parse ⟨llm, reg, Option.none, m⟩ q := by
  cases tel with
  | none => rfl
  | some t =>
    have ht2 : goodTelemetry t := ht
    unfold answer
    show (match (if t.hasSetRequestId then t.setRequestId else Except.ok ()) with
      | .error e => ((.error e : Except String String), 0)
      | .ok _ => answerTry parse llm reg (some t) q) = _
    have hpre : (if t.hasSetRequestId then t.setRequestId else Except.ok ())
        = Except.ok () := by
      by_cases hsr : t.hasSetRequestId = true
      · rw [if_pos hsr]
        exact ht2.1
      · rw [if_neg hsr]
    rw [hpre, answerTry_goodOpt_eq parse llm reg (some t) q ht]

/-- Claim C8 (amended): the answer text is identical whether the telemetry
port is absent or present with every operation returning normally.  (The
original claim also covered raising telemetry ports; those change the
returned text, see the counterexample, because the orchestrator does not
guard its telemetry calls.) -/
theorem c8_good_telemetry_invisible (parse : String → Option PVal)
    (llm : String → Except String PVal) (reg : Registry) (m : Nat)
    (t : TelemetryOps) (q : String) (ht : goodTelemetry t) :
    answer parse ⟨llm, reg, some t, m⟩ q
      = answer parse ⟨llm, reg, Option.none, m⟩ q :=
  answer_goodOpt_eq parse llm reg m (some t) q ht

/-- A telemetry port that returns normally everywhere. -/
def goodTelemetryW : TelemetryOps :=
  ⟨true, true, true, .ok (), fun _ => .ok (), .ok (), .ok "span1", .ok ()⟩

/-- A telemetry port whose `log_event` raises on the first event `answer`
emits and returns normally otherwise. -/
def badTelemetryW : TelemetryOps :=
  ⟨false, false, false, .ok (),
   fun n => if n == "question_received" then .error "boom" else .ok (),
   .ok (), .ok "span1", .ok ()⟩

/-- Witness for C8: with an everywhere-normal telemetry port, a plain
text-plan run returns the same value as with no telemetry. -/
theorem c8_good_telemetry_invisible_witness :
    goodTelemetry goodTelemetryW
    ∧ answer (fun _ => Option.none)
        ⟨fun _ => .ok (.str "hello"), [], some goodTelemetryW, 3⟩ "hi"
      = answer (fun _ => Option.none)
        ⟨fun _ => .ok (.str "hello"), [], Option.none, 3⟩ "hi" := by
  have hg : goodTelemetry goodTelemetryW :=
    ⟨rfl, fun e => rfl, rfl, ⟨"span1", rfl⟩, rfl⟩
  exact ⟨hg, c8_good_telemetry_invisible (fun _ => Option.none)
    (fun _ => .ok (.str "hello")) [] 3 goodTelemetryW "hi" hg⟩

/-- Counterexample for C8 as stated: a telemetry port raising inside
`log_event` changes the returned text from `hello` to `Error: boom`, so the
answer text is not invariant under raising telemetry. -/
theorem c8_counterexample :
    answer (fun _ => Option.none)
      ⟨fun _ => .ok (.str "hello"), [], Option.none, 3⟩ "hi"
      = (.ok "hello", 0)
    ∧ answer (fun _ => Option.none)
      ⟨fun _ => .ok (.str "hello"), [], some badTelemetryW, 3⟩ "hi"
      = (.ok "Error: boom", 0)
    ∧ ("hello" : String) ≠ "Error: boom" := by
  refine ⟨rfl, rfl, by decide⟩

/-! ## Claim C1 — the Error text contract of the entry point -/

/-- Without telemetry, a reasoning-component failure is converted by the
top-level handler into the `Error: ` text. -/
theorem answer_none_llm_error (parse : String → Option PVal)
    (llm : String → Except String PVal) (reg : Registry) (m : Nat)
    (q : String) (e : String) (he : llm (sanitize_input q) = .error e) :
    answer parse ⟨llm, reg, Option.none, m⟩ q = (.ok ("Error: " ++ e), 0) := by
  simp only [answer, answerTry, telLogEvent_none, telLogLLMCall_none,
    answerHandler_none, he]

/-- Without telemetry, `answer` always returns normally with some string. -/
theorem answer_none_total (parse : String → Option PVal)
    (llm : String → Except String PVal) (reg : Registry) (m : Nat)
    (q : String) :
    ∃ s cnt, answer parse ⟨llm, reg, Option.none, m⟩ q = (.ok s, cnt) := by
  cases hl : llm (sanitize_input q) with
  | error e => exact ⟨"Error: " ++ e, 0, answer_none_llm_error parse llm reg m q e hl⟩
  | ok plan =>
    cases hp : processPlanWith (executeToolCall reg Option.none) parse plan with
    | mk res cnt =>
      cases res with
      | error e =>
        refine ⟨"Error: " ++ e, cnt, ?_⟩
        simp only [answer, answerTry, telLogEvent_none, telLogLLMCall_none,
          answerHandler_none, hl, hp]
      | ok r =>
        refine ⟨validate_output r, cnt, ?_⟩
        simp only [answer, answerTry, telLogEvent_none, telLogLLMCall_none,
          answerHandler_none, hl, hp]

/-- A capability whose execution raises is recovered inside the executor:
the step result is the `Tool execution error: ` text, not a raised
exception and not an `Error: `-prefixed text. -/
theorem executeToolCall_exec_error (reg : Registry)
    (tel : Option TelemetryOps) (tc : ToolCall) (tool : Tool) (e : String)
    (ht : goodOptTelemetry tel) (hl : reg.lookup tc.tool = some tool)
    (he : tool.exec tc.args = .error e) :
    executeToolCall reg tel tc
      = (.ok (.str ("Tool execution error: " ++ e)), 1) := by
  rw [executeToolCall_goodOpt_eq reg tel tc ht]
  have hhas : hasTool reg tc.tool = true := by
    unfold hasTool
    rw [hl]
    rfl
  show execTryBody reg Option.none Option.none tc = _
  simp only [execTryBody, hhas, Bool.true_eq_false, if_false, hl, he,
    execExceptHandler_goodOpt Option.none trivial]

/-- Claim C1 (amended): provided the telemetry port is absent or its
operations return normally, `answer` always returns a string and never
raises; failures that reach the top-level handler, such as a
reasoning-component failure, yield exactly `Error: ` followed by the
failure message; a capability execution failure, however, is recovered
inside the executor and surfaces as `Tool execution error: ` followed by
the message, without the `Error: ` prefix (see the counterexample).  (The
original claim asserted the `Error: ` prefix for capability execution
failures as well.) -/
theorem c1_error_text_contract :
    (∀ (parse : String → Option PVal) (llm : String → Except String PVal)
        (reg : Registry) (m : Nat) (tel : Option TelemetryOps) (q : String),
      goodOptTelemetry tel →
      ∃ s cnt, answer parse ⟨llm, reg, tel, m⟩ q = (.ok s, cnt))
    ∧ (∀ (parse : String → Option PVal) (llm : String → Except String PVal)
        (reg : Registry) (m : Nat) (tel : Option TelemetryOps) (q e : String),
      goodOptTelemetry tel → llm (sanitize_input q) = .error e →
      answer parse ⟨llm, reg, tel, m⟩ q = (.ok ("Error: " ++ e), 0))
    ∧ (∀ (reg : Registry) (tel : Option TelemetryOps) (tc : ToolCall)
        (tool : Tool) (e : String),
      goodOptTelemetry tel → reg.lookup tc.tool = some tool →
      tool.exec tc.args = .error e →
      executeToolCall reg tel tc
        = (.ok (.str ("Tool execution error: " ++ e)), 1)) := by
  refine ⟨?_, ?_, ?_⟩
  · intro parse llm reg m tel q ht
    rw [answer_goodOpt_eq parse llm reg m tel q ht]
    exact answer_none_total parse llm reg m q
  · intro parse llm reg m tel q e ht he
    rw [answer_goodOpt_eq parse llm reg m tel q ht]
    exact answer_none_llm_error parse llm reg m q e he
  · intro reg tel tc tool e ht hl he
    exact executeToolCall_exec_error reg tel tc tool e ht hl he

/-- Witness for C1: a failing reasoning component yields the Error text,
and a raising capability yields the recovered Tool-execution-error text. -/
theorem c1_error_text_contract_witness :
    answer (fun _ => Option.none)
      ⟨fun _ => .error "llm down", [], Option.none, 3⟩ "hi"
      = (.ok ("Error: " ++ "llm down"), 0)
    ∧ executeToolCall [("calc", toolBoom)] Option.none ⟨"calc", []⟩
      = (.ok (.str ("Tool execution error: " ++ "boom")), 1) :=
  ⟨c1_error_text_contract.2.1 (fun _ => Option.none)
      (fun _ => .error "llm down") [] 3 Option.none "hi" "llm down" trivial rfl,
   c1_error_text_contract.2.2 [("calc", toolBoom)] Option.none
      ⟨"calc", []⟩ toolBoom "boom" trivial rfl rfl⟩

/-- Counterexample for C1 as stated: when the invoked capability raises
`boom`, the returned string is `Tool execution error: boom`, which does not
carry the `Error: ` prefix the claim requires for capability execution
failures. -/
theorem c1_counterexample :
    answer (fun _ => Option.none)
      ⟨fun _ => .ok (.dict [("tool", .str "calc")]),
       [("calc", toolBoom)], Option.none, 3⟩ "hi"
      = (.ok "Tool execution error: boom", 1)
    ∧ "Error: ".toList.isPrefixOf "Tool execution error: boom".toList = false :=
  ⟨rfl, rfl⟩

end Agent
